import Mathlib

/-!
Shallow embedding of `src/app.py` (Chat-With-Database): a Streamlit app whose
`DatabaseConnector` opens a MySQL handle from five credential strings, whose
`SQLAssistant.generate_response` runs a two-model-call LangChain pipeline
(SQL generation, SQL execution, narration) under a single catch-all, and whose
`ChatApp` keeps session state (chat history plus optional handle) and appends
messages on each user turn.

External collaborators (the hosted language model, the database driver) are
modelled as oracles: functions returning `Except String _`, where `.error e`
stands for a raised Python exception with message `e`.
-/

namespace ChatWithDatabase

/-- A chat message, `langchain.schema.AIMessage` / `HumanMessage`:
tagged author plus literal text content. -/
inductive Message where
  | ai (content : String)
  | human (content : String)
deriving DecidableEq, Repr

/-- The database handle (`SQLDatabase`), as the app uses it: `get_table_info`
is modelled as a sequence of per-call results (`infoSeq n` is what the n-th
fetch within one pipeline invocation returns), and `run` executes a SQL string.
Either call may raise (`.error`). -/
structure DB where
  infoSeq : Nat → Except String String
  run : String → Except String String

/-- A formatted prompt: `ChatPromptTemplate.from_template(t).format(slots)` is
determined by which of the two fixed templates is used and by the slot values,
so the prompt is embedded as that data. `sql` is the SQL-generation template
(slots `schema`, `chat_history`); `response` is the narration template (slots
`schema`, `chat_history`, `query`, `question`, `response`). -/
inductive Prompt where
  | sql (schema : String) (chat_history : List Message)
  | response (schema : String) (chat_history : List Message)
      (query : String) (question : String) (sqlResponse : String)
deriving DecidableEq, Repr

/-- The hosted language model (`ChatGoogleGenerativeAI` behind
`prompt | llm | StrOutputParser()`): a prompt goes in, text comes out, or the
call raises. -/
structure LLM where
  invoke : Prompt → Except String String

namespace DatabaseConnector

/-- The connection string built by `DatabaseConnector.connect` (line 19):
`f"mysql+mysqlconnector://{user}:{password}@{host}:{port}/{database}"`. -/
def db_uri (user password host port database : String) : String :=
  "mysql+mysqlconnector://" ++ user ++ ":" ++ password ++ "@" ++ host ++ ":"
    ++ port ++ "/" ++ database

/-- `DatabaseConnector.connect` (lines 17-21): build the URI and open the
handle from it. `from_uri` is the driver oracle (`SQLDatabase.from_uri`),
which may raise. -/
def connect (from_uri : String → Except String DB)
    (user password host port database : String) : Except String DB :=
  from_uri (db_uri user password host port database)

end DatabaseConnector

/-- The connection-string format exactly as the spec words it:
`<dialect>://<user>:<password>@<host>:<port>/<database>`. -/
def spec_connection_string (dialect user password host port database : String) :
    String :=
  dialect ++ "://" ++ user ++ ":" ++ password ++ "@" ++ host ++ ":" ++ port
    ++ "/" ++ database

/-- What one invocation of the full LangChain pipeline did: its outcome, how
many times `db.get_table_info()` was called, and which prompts were sent to
the model (in order, including a call that raised). -/
structure ChainResult where
  result : Except String String
  fetches : Nat
  llm_calls : List Prompt
deriving Repr

/-- The pipeline built in `SQLAssistant.generate_response` (lines 56-79) and
run by `chain.invoke({question, chat_history})` (lines 83-86), inlining
`get_sql_chain` (lines 29-52):

1. the SQL chain fetches the schema (`get_schema`, fetch 0), formats the
   SQL-generation prompt and calls the model; its text output is `query`;
2. the outer `.assign` fetches the schema again (fetch 1) and executes
   `db.run(query)`;
3. the narration prompt is formatted from the second schema, the history, the
   query, the question and the SQL response, and the model is called again.

A raised exception anywhere aborts the rest and surfaces as `.error`. -/
def chainInvoke (db : DB) (llm : LLM) (question : String)
    (chat_history : List Message) : ChainResult :=
  match db.infoSeq 0 with
  | .error e => ⟨.error e, 1, []⟩
  | .ok schema1 =>
    let p1 := Prompt.sql schema1 chat_history
    match llm.invoke p1 with
    | .error e => ⟨.error e, 1, [p1]⟩
    | .ok query =>
      match db.infoSeq 1 with
      | .error e => ⟨.error e, 2, [p1]⟩
      | .ok schema2 =>
        match db.run query with
        | .error e => ⟨.error e, 2, [p1]⟩
        | .ok sqlResponse =>
          let p2 := Prompt.response schema2 chat_history query question sqlResponse
          match llm.invoke p2 with
          | .error e => ⟨.error e, 2, [p1, p2]⟩
          | .ok answer => ⟨.ok answer, 2, [p1, p2]⟩

/-- `SQLAssistant`: holds the model the API key denotes (the two
`ChatGoogleGenerativeAI(model="gemini-1.5-pro", google_api_key=...)`
constructions name the same hosted model). -/
structure SQLAssistant where
  llm : LLM

/-- The fixed user-facing text of the catch-all in `generate_response`
(lines 89-92). -/
def error_message : String :=
  "An error occurred while processing your request. "
    ++ "This could be due to hitting the API limit or other issues. Please try again later."

/-- `SQLAssistant.generate_response` (lines 54-94): invoke the pipeline; on
any exception return the fixed `error_message` instead (the `st.error` display
is a UI effect with no bearing on the returned value). -/
def SQLAssistant.generate_response (a : SQLAssistant) (user_query : String)
    (db : DB) (chat_history : List Message) : String :=
  match (chainInvoke db a.llm user_query chat_history).result with
  | .ok answer => answer
  | .error _ => error_message

/-- The Streamlit session state the app reads and writes:
`st.session_state.chat_history` and `st.session_state.db`. -/
structure SessionState where
  chat_history : List Message
  db : Option DB

/-- The fixed greeting `init_session_state` seeds (line 110). -/
def greeting : String :=
  "Hello! I'm SQL assistant. Ask me anything about your database."

/-- `ChatApp.init_session_state` (lines 106-113): each key is seeded only when
absent; an absent `chat_history` becomes the one-greeting log and an absent
`db` becomes `None`. -/
def init_session_state (hist : Option (List Message)) (db : Option (Option DB)) :
    SessionState :=
  ⟨hist.getD [Message.ai greeting], db.getD none⟩

/-- What the sidebar surfaces after a Connect click: `st.success(...)` or
`st.error(f"Failed to connect: {e}")`. -/
inductive Notice where
  | success (text : String)
  | failure (text : String)
deriving DecidableEq, Repr

/-- The Connect branch of `ChatApp.sidebar` (lines 124-136): call
`DatabaseConnector.connect` on the five form values; on success assign
`st.session_state.db` and show the success notice; on an exception leave the
session state untouched and show the failure notice. -/
def sidebar_connect (from_uri : String → Except String DB)
    (user password host port database : String) (s : SessionState) :
    SessionState × Notice :=
  match DatabaseConnector.connect from_uri user password host port database with
  | .ok db => ({ s with db := some db }, .success "Connected to the database!")
  | .error e => (s, .failure ("Failed to connect: " ++ e))

/-- `ChatApp.handle_user_query` (lines 148-166). `input` is what
`st.chat_input` returned (`none` when nothing was submitted); a falsy value
(`None` or the empty string) skips the whole body. Otherwise the user message
is appended first; then, only if a handle is set, `generate_response` is
called on the already-updated history and its result appended as an AI
message. The returned flag records whether the Assistant was invoked. -/
def handle_user_query (a : SQLAssistant) (s : SessionState)
    (input : Option String) : SessionState × Bool :=
  match input with
  | none => (s, false)
  | some user_query =>
    if user_query = "" then (s, false)
    else
      let h1 := s.chat_history ++ [Message.human user_query]
      match s.db with
      | some db =>
        let response := a.generate_response user_query db h1
        (⟨h1 ++ [Message.ai response], s.db⟩, true)
      | none => (⟨h1, s.db⟩, false)

/-- A sequence of completed user turns: each submitted question is processed
by `handle_user_query` on the state the previous turn left. -/
def runTurns (a : SQLAssistant) (s : SessionState) (qs : List String) :
    SessionState :=
  qs.foldl (fun st q => (handle_user_query a st (some q)).1) s

/-- The messages N completed turns contribute to the log: for each question
`qs[i]` with answer `rs[i]`, one user message followed by one assistant
message, in turn order. -/
def turnPairs (qs rs : List String) : List Message :=
  (List.zip qs rs).flatMap (fun p => [Message.human p.1, Message.ai p.2])

/-! Concrete oracles used to exercise the definitions on closed inputs. -/

/-- A handle whose driver raises on every call (for example, the MySQL server
went away). -/
def dbDown : DB :=
  ⟨fun _ => .error "connection lost", fun _ => .error "connection lost"⟩

/-- A healthy handle: schema fetches and query execution succeed. -/
def dbOk : DB :=
  ⟨fun _ => .ok "CREATE TABLE artist (id INT, name TEXT)", fun _ => .ok "[(275,)]"⟩

/-- A model that answers every prompt with the same non-empty text. -/
def llmOk : LLM := ⟨fun _ => .ok "There are 275 artists."⟩

/-- A model that answers every prompt with the empty string. -/
def llmEmpty : LLM := ⟨fun _ => .ok ""⟩

/-- An assistant wired to `llmOk`. -/
def assistantOk : SQLAssistant := ⟨llmOk⟩

/-- An assistant wired to `llmEmpty`. -/
def assistantEmpty : SQLAssistant := ⟨llmEmpty⟩

/-- A driver oracle for which every connect attempt raises. -/
def driverDown : String → Except String DB := fun _ => .error "Access denied"

/-- C1: for every question, handle and history, if anything inside SQL
generation, SQL execution or narration raised (the pipeline result is
`.error e` for any cause `e` whatsoever), `generate_response` does not
propagate the exception: it returns exactly the one fixed generic error
string, with no differentiation by cause. -/
theorem generate_response_catch_all (a : SQLAssistant) (db : DB)
    (user_query : String) (chat_history : List Message) (e : String)
    (h : (chainInvoke db a.llm user_query chat_history).result = .error e) :
    a.generate_response user_query db chat_history =
      "An error occurred while processing your request. This could be due to hitting the API limit or other issues. Please try again later." := by
  unfold SQLAssistant.generate_response
  rw [h]
  rfl

/-- Witness for C1: with a dead database every fetch raises, and
`generate_response` on a concrete question and history returns the fixed
error string. -/
theorem generate_response_catch_all_witness :
    (chainInvoke dbDown assistantOk.llm "How many artists are there?" []).result
        = .error "connection lost" ∧
    assistantOk.generate_response "How many artists are there?" dbDown [] =
      "An error occurred while processing your request. This could be due to hitting the API limit or other issues. Please try again later." :=
  ⟨rfl, generate_response_catch_all assistantOk dbDown "How many artists are there?" [] "connection lost" rfl⟩

/-- C6: for all five string arguments, `connect` builds exactly the URI
`<dialect>://<user>:<password>@<host>:<port>/<database>` with the fixed
dialect `mysql+mysqlconnector`, opens the handle from that URI, and performs
no validation or escaping on any field: the URI length is exactly the sum of
the five field lengths plus the 27 fixed characters, so every field appears
verbatim. -/
theorem connect_builds_exact_uri (from_uri : String → Except String DB)
    (user password host port database : String) :
    DatabaseConnector.db_uri user password host port database =
      spec_connection_string "mysql+mysqlconnector" user password host port database ∧
    DatabaseConnector.connect from_uri user password host port database =
      from_uri (DatabaseConnector.db_uri user password host port database) ∧
    (DatabaseConnector.db_uri user password host port database).length =
      user.length + password.length + host.length + port.length + database.length + 27 := by
  refine ⟨?_, rfl, ?_⟩
  · simp only [DatabaseConnector.db_uri, spec_connection_string, ← String.append_assoc]
    rfl
  · simp only [DatabaseConnector.db_uri, String.length_append,
      show ("mysql+mysqlconnector://" : String).length = 23 from rfl,
      show (":" : String).length = 1 from rfl,
      show ("@" : String).length = 1 from rfl,
      show ("/" : String).length = 1 from rfl]
    ring

/-- C10: a falsy chat input (nothing submitted, or the empty string) is a
complete no-op: no message of either role is appended, the Assistant is not
invoked (flag `false`), and the session state — history and handle — is
returned exactly unchanged. -/
theorem handle_user_query_empty_noop (a : SQLAssistant) (s : SessionState) :
    handle_user_query a s (some "") = (s, false) ∧
    handle_user_query a s none = (s, false) := by
  constructor
  · simp [handle_user_query]
  · rfl

/-- C5: for every five credential inputs on which the connect attempt raises,
the Connect action catches the error at the call site, shows the specific
failure notice, and does not assign the session handle: the whole session
state is returned unchanged, so a previously unset handle remains unset. -/
theorem sidebar_connect_failure (from_uri : String → Except String DB)
    (user password host port database e : String) (s : SessionState)
    (h : DatabaseConnector.connect from_uri user password host port database
        = .error e) :
    sidebar_connect from_uri user password host port database s =
      (s, .failure ("Failed to connect: " ++ e)) ∧
    (s.db = none →
      (sidebar_connect from_uri user password host port database s).1.db = none) := by
  unfold sidebar_connect
  rw [h]
  exact ⟨rfl, fun hdb => hdb⟩

/-- Witness for C5: a connect attempt on the default form values with a
raising driver leaves a fresh session (no handle) unchanged and surfaces the
failure notice. -/
theorem sidebar_connect_failure_witness :
    DatabaseConnector.connect driverDown "root" "admin" "localhost" "3306" "chinook"
        = .error "Access denied" ∧
    sidebar_connect driverDown "root" "admin" "localhost" "3306" "chinook"
        (init_session_state none none) =
      (init_session_state none none, .failure ("Failed to connect: " ++ "Access denied")) ∧
    (init_session_state none none).db = none :=
  ⟨rfl,
   (sidebar_connect_failure driverDown "root" "admin" "localhost" "3306" "chinook"
      "Access denied" (init_session_state none none) rfl).1,
   rfl⟩

/-- C2: with no handle in the session, a non-empty chat submission appends the
user message only: the Assistant is not invoked (flag `false`), no assistant
message is appended, and the history is the pre-existing messages plus the new
user message. -/
theorem handle_user_query_no_handle (a : SQLAssistant) (s : SessionState)
    (q : String) (hq : q ≠ "") (hdb : s.db = none) :
    handle_user_query a s (some q) =
      (⟨s.chat_history ++ [Message.human q], none⟩, false) := by
  unfold handle_user_query
  simp [hq, hdb]

/-- Witness for C2: a fresh seeded session with no handle, given a concrete
question, ends with just the greeting and the user message, Assistant not
invoked. -/
theorem handle_user_query_no_handle_witness :
    ("Show tables" ≠ "") ∧
    handle_user_query assistantOk ⟨[Message.ai greeting], none⟩ (some "Show tables") =
      (⟨[Message.ai greeting, Message.human "Show tables"], none⟩, false) := by
  refine ⟨by decide, ?_⟩
  have h := handle_user_query_no_handle assistantOk ⟨[Message.ai greeting], none⟩
    "Show tables" (by decide) rfl
  simpa using h

/-- Counterexample to C8 as stated: with a healthy handle and a model whose
narration output is the empty string, `generate_response` on a concrete
question returns the empty string — the success-path return value is not
always non-empty, because it is the model output verbatim. -/
theorem generate_response_empty_counterexample :
    assistantEmpty.generate_response "How many artists are in the table?" dbOk [] = "" :=
  rfl

/-- C8 amended: `generate_response` is total and always returns a string; on
the failure path it returns the fixed error string, which is non-empty, and on
the success path it returns the model narration output verbatim, hence a
non-empty string whenever that output is non-empty. -/
theorem generate_response_nonempty_amended (a : SQLAssistant) (db : DB)
    (user_query : String) (chat_history : List Message) :
    (∀ e, (chainInvoke db a.llm user_query chat_history).result = .error e →
      a.generate_response user_query db chat_history = error_message) ∧
    error_message ≠ "" ∧
    (∀ ans, (chainInvoke db a.llm user_query chat_history).result = .ok ans →
      a.generate_response user_query db chat_history = ans) := by
  refine ⟨?_, by decide, ?_⟩
  · intro e he
    unfold SQLAssistant.generate_response
    rw [he]
  · intro ans hans
    unfold SQLAssistant.generate_response
    rw [hans]

/-- Witness for C8 (amended form): with healthy oracles the pipeline succeeds
and `generate_response` returns the model output, a non-empty concrete
string. -/
theorem generate_response_nonempty_amended_witness :
    (chainInvoke dbOk assistantOk.llm "How many artists are in the table?" []).result
        = .ok "There are 275 artists." ∧
    assistantOk.generate_response "How many artists are in the table?" dbOk []
        = "There are 275 artists." ∧
    error_message ≠ "" := by
  have h := generate_response_nonempty_amended assistantOk dbOk
    "How many artists are in the table?" []
  exact ⟨rfl, h.2.2 "There are 275 artists." rfl, h.2.1⟩

/-- One completed turn with a handle present: the user message is appended
first, `generate_response` is called on that already-updated history, and its
result is appended as an assistant message; the handle is untouched. -/
theorem handle_user_query_with_handle (a : SQLAssistant) (s : SessionState)
    (db : DB) (q : String) (hq : q ≠ "") (hdb : s.db = some db) :
    handle_user_query a s (some q) =
      (⟨s.chat_history ++ [Message.human q]
          ++ [Message.ai (a.generate_response q db (s.chat_history ++ [Message.human q]))],
        some db⟩, true) := by
  unfold handle_user_query
  simp [hq, hdb]

/-- No call to `handle_user_query` ever edits, removes or reorders messages:
the old history is a prefix of the new one, and the handle is unchanged. -/
theorem handle_user_query_append_only (a : SQLAssistant) (s : SessionState)
    (input : Option String) :
    (∃ t, (handle_user_query a s input).1.chat_history = s.chat_history ++ t) ∧
    (handle_user_query a s input).1.db = s.db := by
  cases input with
  | none => exact ⟨⟨[], by simp [handle_user_query]⟩, rfl⟩
  | some q =>
    by_cases hq : q = ""
    · subst hq
      exact ⟨⟨[], by simp [handle_user_query]⟩, rfl⟩
    · cases hdb : s.db with
      | none =>
        constructor
        · exact ⟨[Message.human q], by simp [handle_user_query, hq, hdb]⟩
        · simp [handle_user_query, hq, hdb]
      | some db =>
        rw [handle_user_query_with_handle a s db q hq hdb]
        exact ⟨⟨[Message.human q]
            ++ [Message.ai (a.generate_response q db (s.chat_history ++ [Message.human q]))],
          by simp⟩, rfl⟩

/-- Messages already in the history survive any number of further turns. -/
theorem runTurns_mem (a : SQLAssistant) (m : Message) :
    ∀ (qs : List String) (s : SessionState), m ∈ s.chat_history →
      m ∈ (runTurns a s qs).chat_history := by
  intro qs
  induction qs with
  | nil => intro s h; exact h
  | cons q qs ih =>
    intro s h
    apply ih
    obtain ⟨⟨t, ht⟩, _⟩ := handle_user_query_append_only a s (some q)
    rw [ht]
    exact List.mem_append_left t h

/-- With a handle present and non-empty questions, running the turns appends
exactly one user/assistant pair per turn, for some list of answers, and keeps
the handle. -/
theorem runTurns_shape (a : SQLAssistant) (db : DB) :
    ∀ (qs : List String) (s : SessionState), s.db = some db →
      (∀ q ∈ qs, q ≠ "") →
      ∃ rs : List String, rs.length = qs.length ∧
        (runTurns a s qs).chat_history = s.chat_history ++ turnPairs qs rs ∧
        (runTurns a s qs).db = some db := by
  intro qs
  induction qs with
  | nil =>
    intro s hdb _
    exact ⟨[], rfl, by simp [runTurns, turnPairs], hdb⟩
  | cons q qs ih =>
    intro s hdb hne
    have hq : q ≠ "" := hne q (List.mem_cons_self q qs)
    have hstep := handle_user_query_with_handle a s db q hq hdb
    have hrun : runTurns a s (q :: qs) =
        runTurns a (handle_user_query a s (some q)).1 qs := rfl
    obtain ⟨rs, hlen, hhist, hdb'⟩ := ih (handle_user_query a s (some q)).1
      (by rw [hstep]) (fun x hx => hne x (List.mem_cons_of_mem q hx))
    refine ⟨a.generate_response q db (s.chat_history ++ [Message.human q]) :: rs,
      by simp [hlen], ?_, by rw [hrun]; exact hdb'⟩
    rw [hrun, hhist, hstep]
    simp [turnPairs]

/-- After `N` turns and for every list of answers, the pair block is `2N`
messages long. -/
theorem turnPairs_length :
    ∀ (qs rs : List String), rs.length = qs.length →
      (turnPairs qs rs).length = 2 * qs.length := by
  intro qs
  induction qs with
  | nil => intro rs _; rfl
  | cons q qs ih =>
    intro rs h
    cases rs with
    | nil => simp at h
    | cons r rs =>
      have := ih rs (by simpa using h)
      simp [turnPairs] at this ⊢
      omega

/-- C3: a fresh session seeds exactly one fixed greeting; after a successful
Connect on the default form values and N completed non-empty turns, the log is
exactly the greeting followed by one user/assistant pair per turn (so `1 + 2N`
messages, in chronological order), and neither `handle_user_query` nor the
Connect action ever edits, removes or reorders an existing message: the old
history is always a prefix of the new one. -/
theorem history_seed_and_append_only (a : SQLAssistant) (db : DB)
    (qs : List String) (hne : ∀ q ∈ qs, q ≠ "") :
    (init_session_state none none).chat_history = [Message.ai greeting] ∧
    (∃ rs : List String, rs.length = qs.length ∧
      (runTurns a
        (sidebar_connect (fun _ => Except.ok db) "root" "admin" "localhost" "3306"
          "chinook" (init_session_state none none)).1 qs).chat_history
        = Message.ai greeting :: turnPairs qs rs) ∧
    (runTurns a
        (sidebar_connect (fun _ => Except.ok db) "root" "admin" "localhost" "3306"
          "chinook" (init_session_state none none)).1 qs).chat_history.length
      = 1 + 2 * qs.length ∧
    (∀ (s : SessionState) (input : Option String),
      ∃ t, (handle_user_query a s input).1.chat_history = s.chat_history ++ t) ∧
    (∀ (from_uri : String → Except String DB) (u p h po d : String)
        (s : SessionState),
      (sidebar_connect from_uri u p h po d s).1.chat_history = s.chat_history) := by
  obtain ⟨rs, hlen, hhist, -⟩ := runTurns_shape a db qs
    (sidebar_connect (fun _ => Except.ok db) "root" "admin" "localhost" "3306"
      "chinook" (init_session_state none none)).1 rfl hne
  refine ⟨rfl, ⟨rs, hlen, ?_⟩, ?_, fun s input => (handle_user_query_append_only a s input).1,
    fun from_uri u p h po d s => ?_⟩
  · rw [hhist]
    rfl
  · rw [hhist]
    show (Message.ai greeting :: turnPairs qs rs).length = 1 + 2 * qs.length
    rw [List.length_cons, turnPairs_length qs rs hlen]
    omega
  · unfold sidebar_connect
    cases DatabaseConnector.connect from_uri u p h po d <;> rfl

/-- Witness for C3: one concrete turn on a connected fresh session yields a
log of exactly `1 + 2` messages. -/
theorem history_seed_and_append_only_witness :
    (∀ q ∈ ["List all tables"], q ≠ "") ∧
    (runTurns assistantOk
        (sidebar_connect (fun _ => Except.ok dbOk) "root" "admin" "localhost" "3306"
          "chinook" (init_session_state none none)).1
        ["List all tables"]).chat_history.length
      = 1 + 2 * (["List all tables"] : List String).length := by
  refine ⟨by decide, ?_⟩
  exact (history_seed_and_append_only assistantOk dbOk ["List all tables"]
    (by decide)).2.2.1

/-- C4: on a turn whose pipeline raises, the fixed error string is appended as
the assistant message right after the user message, and it remains in the
session history across any number of future turns (so it is part of the
history every future `generate_response` receives). -/
theorem error_string_pollutes_history (a : SQLAssistant) (s : SessionState)
    (db : DB) (q e : String) (hq : q ≠ "") (hdb : s.db = some db)
    (herr : (chainInvoke db a.llm q (s.chat_history ++ [Message.human q])).result
        = .error e) :
    (handle_user_query a s (some q)).1.chat_history =
      s.chat_history ++ [Message.human q, Message.ai error_message] ∧
    (∀ qs : List String,
      Message.ai error_message ∈
        (runTurns a (handle_user_query a s (some q)).1 qs).chat_history) := by
  have hresp : a.generate_response q db (s.chat_history ++ [Message.human q])
      = error_message := by
    unfold SQLAssistant.generate_response
    rw [herr]
  have hstep := handle_user_query_with_handle a s db q hq hdb
  have hh : (handle_user_query a s (some q)).1.chat_history =
      s.chat_history ++ [Message.human q, Message.ai error_message] := by
    rw [hstep, hresp]
    simp
  refine ⟨hh, fun qs => runTurns_mem a (Message.ai error_message) qs _ ?_⟩
  rw [hh]
  simp

/-- Witness for C4: a concrete failed turn on a dead handle leaves the seeded
history followed by the user message and the error string. -/
theorem error_string_pollutes_history_witness :
    (chainInvoke dbDown assistantOk.llm "Count the rows"
        ([Message.ai greeting] ++ [Message.human "Count the rows"])).result
      = Except.error "connection lost" ∧
    (handle_user_query assistantOk ⟨[Message.ai greeting], some dbDown⟩
        (some "Count the rows")).1.chat_history
      = [Message.ai greeting] ++ [Message.human "Count the rows", Message.ai error_message] := by
  refine ⟨rfl, ?_⟩
  exact (error_string_pollutes_history assistantOk ⟨[Message.ai greeting], some dbDown⟩
    dbDown "Count the rows" "connection lost" (by decide) rfl rfl).1

/-- C7: the schema is never cached. Within one pipeline invocation the fetch
count never exceeds two; whenever the invocation succeeds it is exactly two;
and on the full success path the SQL-generation prompt carries the schema from
fetch 0 while the narration prompt carries the schema from the separate
fetch 1 — each of the two model calls gets a freshly fetched schema. -/
theorem schema_fetched_twice (a : SQLAssistant) (db : DB) (q : String)
    (hist : List Message) :
    (chainInvoke db a.llm q hist).fetches ≤ 2 ∧
    (∀ ans, (chainInvoke db a.llm q hist).result = .ok ans →
      (chainInvoke db a.llm q hist).fetches = 2) ∧
    (∀ s0 s1 qy r, db.infoSeq 0 = .ok s0 →
      a.llm.invoke (Prompt.sql s0 hist) = .ok qy →
      db.infoSeq 1 = .ok s1 → db.run qy = .ok r →
      (chainInvoke db a.llm q hist).fetches = 2 ∧
      (chainInvoke db a.llm q hist).llm_calls =
        [Prompt.sql s0 hist, Prompt.response s1 hist qy q r]) := by
  refine ⟨?_, ?_, ?_⟩
  · rcases h0 : db.infoSeq 0 with e | sc1
    · simp [chainInvoke, h0]
    · rcases h1 : a.llm.invoke (Prompt.sql sc1 hist) with e | qy
      · simp [chainInvoke, h0, h1]
      · rcases h2 : db.infoSeq 1 with e | sc2
        · simp [chainInvoke, h0, h1, h2]
        · rcases h3 : db.run qy with e | r
          · simp [chainInvoke, h0, h1, h2, h3]
          · rcases h4 : a.llm.invoke (Prompt.response sc2 hist qy q r) with e | ans <;>
              simp [chainInvoke, h0, h1, h2, h3, h4]
  · intro ans hans
    rcases h0 : db.infoSeq 0 with e | sc1
    · simp [chainInvoke, h0] at hans
    · rcases h1 : a.llm.invoke (Prompt.sql sc1 hist) with e | qy
      · simp [chainInvoke, h0, h1] at hans
      · rcases h2 : db.infoSeq 1 with e | sc2
        · simp [chainInvoke, h0, h1, h2] at hans
        · rcases h3 : db.run qy with e | r
          · simp [chainInvoke, h0, h1, h2, h3] at hans
          · rcases h4 : a.llm.invoke (Prompt.response sc2 hist qy q r) with e | ans' <;>
              simp [chainInvoke, h0, h1, h2, h3, h4]
  · intro s0 s1 qy r h0 h1 h2 h3
    rcases h4 : a.llm.invoke (Prompt.response s1 hist qy q r) with e | ans <;>
      simp [chainInvoke, h0, h1, h2, h3, h4]

/-- Witness for C7: one concrete successful pipeline run fetches the schema
twice and sends exactly the two expected prompts, each with its own fetched
schema. -/
theorem schema_fetched_twice_witness :
    dbOk.infoSeq 0 = .ok "CREATE TABLE artist (id INT, name TEXT)" ∧
    (chainInvoke dbOk assistantOk.llm "How many rows are there?" []).fetches = 2 ∧
    (chainInvoke dbOk assistantOk.llm "How many rows are there?" []).llm_calls =
      [Prompt.sql "CREATE TABLE artist (id INT, name TEXT)" [],
       Prompt.response "CREATE TABLE artist (id INT, name TEXT)" []
         "There are 275 artists." "How many rows are there?" "[(275,)]"] := by
  have h := (schema_fetched_twice assistantOk dbOk "How many rows are there?" []).2.2
    "CREATE TABLE artist (id INT, name TEXT)" "CREATE TABLE artist (id INT, name TEXT)"
    "There are 275 artists." "[(275,)]" rfl rfl rfl rfl
  exact ⟨rfl, h.1, h.2⟩

/-- Every prompt the pipeline sends to the model carries the invocation
history verbatim as its `chat_history` slot, and the narration prompt carries
the question as its `question` slot. -/
theorem chainInvoke_llm_calls_history (db : DB) (llm : LLM) (q : String)
    (hist : List Message) :
    ∀ p ∈ (chainInvoke db llm q hist).llm_calls,
      (∃ sc, p = Prompt.sql sc hist) ∨
      (∃ sc qy r, p = Prompt.response sc hist qy q r) := by
  intro p hp
  rcases h0 : db.infoSeq 0 with e | sc1
  · simp [chainInvoke, h0] at hp
  · rcases h1 : llm.invoke (Prompt.sql sc1 hist) with e | qy
    · simp [chainInvoke, h0, h1] at hp
      exact Or.inl ⟨sc1, hp⟩
    · rcases h2 : db.infoSeq 1 with e | sc2
      · simp [chainInvoke, h0, h1, h2] at hp
        exact Or.inl ⟨sc1, hp⟩
      · rcases h3 : db.run qy with e | r
        · simp [chainInvoke, h0, h1, h2, h3] at hp
          exact Or.inl ⟨sc1, hp⟩
        · rcases h4 : llm.invoke (Prompt.response sc2 hist qy q r) with e | ans <;>
          · simp [chainInvoke, h0, h1, h2, h3, h4] at hp
            rcases hp with hp | hp
            · exact Or.inl ⟨sc1, hp⟩
            · exact Or.inr ⟨sc2, qy, r, hp⟩

/-- C9: on a non-empty turn with a handle, the user message is appended to the
history first and `generate_response` is invoked on that already-updated
history; consequently every prompt the pipeline sends carries a history that
already contains the current question, while the question is also passed
separately as the narration prompt question slot. -/
theorem question_in_context (a : SQLAssistant) (s : SessionState) (db : DB)
    (q : String) (hq : q ≠ "") (hdb : s.db = some db) :
    (handle_user_query a s (some q)).1.chat_history =
      (s.chat_history ++ [Message.human q])
        ++ [Message.ai (a.generate_response q db (s.chat_history ++ [Message.human q]))] ∧
    Message.human q ∈ s.chat_history ++ [Message.human q] ∧
    (∀ p ∈ (chainInvoke db a.llm q (s.chat_history ++ [Message.human q])).llm_calls,
      (∃ sc, p = Prompt.sql sc (s.chat_history ++ [Message.human q])) ∨
      (∃ sc qy r, p = Prompt.response sc (s.chat_history ++ [Message.human q]) qy q r)) := by
  refine ⟨?_, by simp, chainInvoke_llm_calls_history db a.llm q _⟩
  rw [handle_user_query_with_handle a s db q hq hdb]

/-- Witness for C9: a concrete turn on a connected session appends the user
message before the assistant answer, and that user message is in the history
handed to `generate_response`. -/
theorem question_in_context_witness :
    ("Count them" ≠ "") ∧
    (handle_user_query assistantOk ⟨[Message.ai greeting], some dbOk⟩
        (some "Count them")).1.chat_history =
      ([Message.ai greeting] ++ [Message.human "Count them"])
        ++ [Message.ai (assistantOk.generate_response "Count them" dbOk
              ([Message.ai greeting] ++ [Message.human "Count them"]))] ∧
    Message.human "Count them" ∈ [Message.ai greeting] ++ [Message.human "Count them"] := by
  have h := question_in_context assistantOk ⟨[Message.ai greeting], some dbOk⟩ dbOk
    "Count them" (by decide) rfl
  exact ⟨by decide, h.1, h.2.1⟩

end ChatWithDatabase
